import Mathlib

/-!
Verification of the OCI stopped-instance lister
(`src/oci_instance_deallocated_analysis.py`) against its natural-language
specification.

The development is a shallow embedding: each Python function relevant to the
claims is translated into an executable Lean definition.  External capability
calls (the OCI identity and compute APIs) are modelled as oracles passed in as
arguments; exceptions raised by a capability call are modelled as an `err`
constructor, and Python-level exceptions escaping a function are modelled with
`Option`/`Except` results.  Mutable object state (`self.region_cache`,
`self.compartment_cache`, `self.stats['api_calls_made']`) is threaded
explicitly through a `ListerState` record.
-/

/-! ## Character and string utilities

`str.lower`, substring containment (Python `in`), and `str.replace(old, '')`
are modelled over `List Char`.  These model the exact operations the source
uses in `calculate_days_since_created` (line 253) and in the transient-error
check (line 215).
-/

/-- Python `str.lower` restricted to the ASCII casing the source relies on. -/
def toLowerChars (s : List Char) : List Char :=
  s.map Char.toLower

/-- Test whether `pat` is a prefix of `s` (character lists). -/
def isPrefixOfChars : List Char → List Char → Bool
  | [], _ => true
  | _ :: _, [] => false
  | c :: cs, d :: ds => c == d && isPrefixOfChars cs ds

/-- Python `pat in s`: `pat` occurs contiguously in `s`. -/
def containsSub (pat : List Char) : List Char → Bool
  | [] => isPrefixOfChars pat []
  | c :: rest => isPrefixOfChars pat (c :: rest) || containsSub pat rest

/-- Fuel-driven worker for `stripPat`.  The fuel is the length of the input, and
every step consumes at least one character, so the fuel never runs out on the
initial call. -/
def stripPatGo (pat : List Char) : Nat → List Char → List Char
  | 0, s => s
  | _ + 1, [] => []
  | fuel + 1, c :: rest =>
    if isPrefixOfChars pat (c :: rest) then
      stripPatGo pat fuel ((c :: rest).drop pat.length)
    else
      c :: stripPatGo pat fuel rest

/-- Python `s.replace(pat, '')` for a non-empty `pat`: delete every occurrence,
scanning left to right without overlap. -/
def stripPat (pat : List Char) (s : List Char) : List Char :=
  if pat.isEmpty then s else stripPatGo pat s.length s

/-- Parse exactly `n` decimal digits, most significant first, with accumulator. -/
def parseNDigitsAux : Nat → Nat → List Char → Option (Nat × List Char)
  | 0, acc, s => some (acc, s)
  | _ + 1, _, [] => none
  | n + 1, acc, c :: rest =>
    if c.isDigit then parseNDigitsAux n (acc * 10 + (c.toNat - 48)) rest else none

/-- Parse exactly `n` decimal digits starting a character list. -/
def parseNDigits (n : Nat) (s : List Char) : Option (Nat × List Char) :=
  parseNDigitsAux n 0 s

/-- Consume one expected character. -/
def expectChar (c : Char) : List Char → Option (List Char)
  | [] => none
  | d :: rest => if d == c then some rest else none

/-- Numeric value of a digit run (most significant first). -/
def digitsVal (ds : List Char) : Nat :=
  ds.foldl (fun acc c => acc * 10 + (c.toNat - 48)) 0

/-! ## Calendar arithmetic

Proleptic-Gregorian day numbering (days since the Unix epoch 1970-01-01),
used to model the behaviour of Python `datetime` subtraction on UTC instants.
-/

/-- Gregorian leap-year rule. -/
def isLeapYear (y : Nat) : Bool :=
  y % 4 == 0 && (y % 100 != 0 || y % 400 == 0)

/-- Number of days in month `m` of year `y`. -/
def daysInMonth (y m : Nat) : Nat :=
  if m == 2 then (if isLeapYear y then 29 else 28)
  else if m == 4 || m == 6 || m == 9 || m == 11 then 30
  else 31

/-- Days from the Unix epoch to the civil date `y-m-d` (may be negative). -/
def daysFromCivil (y m d : Nat) : Int :=
  let y' : Int := if m ≤ 2 then (y : Int) - 1 else (y : Int)
  let era : Int := y'.fdiv 400
  let yoe : Int := y' - era * 400
  let mp : Int := if m ≤ 2 then (m : Int) + 9 else (m : Int) - 3
  let doy : Int := (153 * mp + 2).fdiv 5 + (d : Int) - 1
  let doe : Int := yoe * 365 + yoe.fdiv 4 - yoe.fdiv 100 + doy
  era * 146097 + doe - 719468

/-- Microseconds per day, the unit of Python `timedelta` normalisation. -/
def usecPerDay : Int := 86400000000

/-- A UTC instant as microseconds since the Unix epoch. -/
def epochMicro (y mo d h mi s micro : Nat) : Int :=
  daysFromCivil y mo d * usecPerDay
    + ((h * 3600 + mi * 60 + s : Nat) : Int) * 1000000 + (micro : Int)

/-! ## Timestamp parsing (`calculate_days_since_created`, lines 244-273)

The source normalises the string by deleting `+00:00` and `Z`
(`time_created.replace('+00:00', '').replace('Z', '')`) and hands the result to
`datetime.fromisoformat`, interpreting it as a UTC instant in both of its
branches (the branch with a fractional part re-tags the naive result with UTC;
the branch without appends `+00:00`).  `fromisoformatUTC` models
`datetime.fromisoformat` on the naive `YYYY-MM-DD<sep>HH:MM:SS[.f{1,6}]` forms
that this normalisation produces from the program's inputs (trailing `Z` or
`+00:00`, with or without sub-second precision); any other remainder — e.g. a
non-UTC offset left in the string — is modelled as a parse failure, which the
source maps to the same default of 0 through its exception handler.
-/

/-- Fractional-second part: one to six digits, scaled to microseconds. -/
def parseFracMicro (r : List Char) : Option (Nat × List Char) :=
  let digits := r.takeWhile Char.isDigit
  let rest := r.dropWhile Char.isDigit
  if digits.length == 0 || 6 < digits.length then none
  else some (digitsVal digits * 10 ^ (6 - digits.length), rest)

/-- Model of `datetime.fromisoformat` on naive (offset-free) timestamps,
returning the UTC instant in epoch microseconds.  A full date and a full
`HH:MM:SS` time (any single separator character, per CPython) are required;
field ranges are validated as `fromisoformat` does. -/
def fromisoformatUTC (s : List Char) : Option Int := do
  let (y, r) ← parseNDigits 4 s
  let r ← expectChar '-' r
  let (mo, r) ← parseNDigits 2 r
  let r ← expectChar '-' r
  let (d, r) ← parseNDigits 2 r
  match r with
  | [] => none
  | _sep :: r => do
    let (h, r) ← parseNDigits 2 r
    let r ← expectChar ':' r
    let (mi, r) ← parseNDigits 2 r
    let r ← expectChar ':' r
    let (sec, r) ← parseNDigits 2 r
    let (micro, r) ←
      match r with
      | [] => some (0, ([] : List Char))
      | '.' :: r2 => parseFracMicro r2
      | _ => none
    if r.isEmpty
        && 1 ≤ y && 1 ≤ mo && mo ≤ 12 && 1 ≤ d && d ≤ daysInMonth y mo
        && h ≤ 23 && mi ≤ 59 && sec ≤ 59 then
      some (epochMicro y mo d h mi sec micro)
    else none

/-- The normalisation on line 253:
`time_created.replace('+00:00', '').replace('Z', '')`. -/
def normalizeTs (s : List Char) : List Char :=
  stripPat "Z".data (stripPat "+00:00".data s)

/-- Source `calculate_days_since_created` (lines 244-273) on the string branch
(the only branch exercised by string-typed `time_created`): empty input returns
0 (line 247); a parse failure is caught and returns 0 (line 273); otherwise the
whole-day difference to `now`, floored at 0 (`max(0, days)`, line 268).  The
current instant is passed in as `nowMicro` (epoch microseconds). -/
def calculate_days_since_created (nowMicro : Int) (time_created : String) : Int :=
  if time_created.data.isEmpty then 0
  else
    match fromisoformatUTC (normalizeTs time_created.data) with
    | some created => max 0 ((nowMicro - created).fdiv usecPerDay)
    | none => 0

/-- The parse step of `calculate_days_since_created`, as a separate function for
stating claims: `none` exactly when the source takes one of its return-0 paths
(empty string, or `fromisoformat` raising). -/
def parsePy (s : String) : Option Int :=
  if s.data.isEmpty then none else fromisoformatUTC (normalizeTs s.data)

/-! ## Tag extraction (`get_owner_from_tags`, lines 226-242)

Python dicts are modelled as association lists in insertion order with unique
keys assumed only where the source relies on it (a first-match lookup models
`key in tags` / `tags[key]` in either case).  A defined-tag namespace slot may
hold a non-dict value, which the source skips via `isinstance(tags, dict)`.
-/

/-- One slot of the `definedTags` mapping: a nested dict, or any non-dict value
(skipped by the `isinstance` check on line 237). -/
inductive TagValue where
  | dict (entries : List (String × String))
  | other
deriving DecidableEq

/-- First-match association-list lookup (Python `d.get(k)` / `k in d`). -/
def dictFind : List (String × String) → String → Option String
  | [], _ => none
  | (k', v) :: rest, k => if k' == k then some v else dictFind rest k

/-- Python `d.get(k, default)`. -/
def dictGet (d : List (String × String)) (k default : String) : String :=
  (dictFind d k).getD default

/-- Python `d[k] = v`: overwrite in place if the key exists, else append. -/
def dictInsert : List (String × String) → String → String → List (String × String)
  | [], k, v => [(k, v)]
  | (k', v') :: rest, k, v =>
    if k' == k then (k, v) :: rest else (k', v') :: dictInsert rest k v

/-- Return the value of the first key of `keys` present in `entries`
(the `for key in [...]` loops on lines 230 and 238). -/
def lookupFirstKey (entries : List (String × String)) : List String → Option String
  | [] => none
  | k :: keys =>
    match dictFind entries k with
    | some v => some v
    | none => lookupFirstKey entries keys

/-- The freeform-tag priority list on line 230. -/
def freeformKeys : List String := ["Owner", "CreatedBy", "Contact", "Maintainer", "Team"]

/-- The defined-tag priority list on line 238. -/
def definedKeys : List String := ["Owner", "CreatedBy", "Contact", "ApplicationOwner"]

/-- The namespace scan on lines 236-240: per namespace in iteration order, skip
non-dict values, and return the first priority key present in that namespace. -/
def scanDefinedTags : List (String × TagValue) → Option String
  | [] => none
  | (_, TagValue.dict entries) :: rest =>
    match lookupFirstKey entries definedKeys with
    | some v => some v
    | none => scanDefinedTags rest
  | (_, TagValue.other) :: rest => scanDefinedTags rest

/-- Source `get_owner_from_tags` (lines 226-242), including the truthiness
guards `if freeform_tags:` and `if defined_tags:` on the two blocks. -/
def get_owner_from_tags (defined_tags : List (String × TagValue))
    (freeform_tags : List (String × String)) : String :=
  match (if freeform_tags.isEmpty then none
         else lookupFirstKey freeform_tags freeformKeys) with
  | some v => v
  | none =>
    match (if defined_tags.isEmpty then none else scanDefinedTags defined_tags) with
    | some v => v
    | none => "Unknown"

/-- Modelled from the spec wording of `extractOwner`: the first present
freeform key in priority order wins before defined tags are consulted; only on
no freeform match are the defined-tag namespaces scanned; no match anywhere
gives "Unknown".  Stated without the source's truthiness guards, to be compared
with `get_owner_from_tags`. -/
def extractOwnerSpec (defined_tags : List (String × TagValue))
    (freeform_tags : List (String × String)) : String :=
  match lookupFirstKey freeform_tags freeformKeys with
  | some v => v
  | none =>
    match scanDefinedTags defined_tags with
    | some v => v
    | none => "Unknown"

/-! ## Data model -/

/-- A raw record returned by the listing capability (spec `RawInstanceRecord`).
Attribute access in Python raises `AttributeError` when the attribute is
missing, so each field is an `Option`; fields the source reads through
`getattr(..., default)` never raise but may still be absent.  `time_created`
is modelled as the string form (the branch of `calculate_days_since_created`
the claims are about).  `region` is the attribute the executor assigns on
line 346 before aggregation. -/
structure RawInstance where
  display_name : Option String
  id : Option String
  shape : Option String
  availability_domain : Option String
  compartment_id : Option String
  time_created : Option String
  freeform_tags : Option (List (String × String))
  defined_tags : Option (List (String × TagValue))
  fault_domain : Option String
  image_id : Option String
  region : Option String
deriving DecidableEq

/-- The derived report record (source dataclass `StoppedInstance`, lines 34-48). -/
structure StoppedInstance where
  instance_name : String
  instance_id : String
  shape : String
  region : String
  availability_domain : String
  compartment_name : String
  compartment_id : String
  time_created : String
  days_since_created : Int
  instance_owner : String
  fault_domain : String
  image_id : String
deriving DecidableEq

/-- Result of one capability call: the data, or a raised exception carrying the
text used by the transient-error heuristic. -/
inductive CallResult (α : Type) where
  | ok (val : α)
  | err (msg : String)
deriving DecidableEq

/-- One entry of `list_region_subscriptions(...).data`. -/
structure RegionSub where
  region_name : String
  status : String
deriving DecidableEq

/-- One entry of `list_compartments(...).data`. -/
structure Compartment where
  id : String
  name : String
  lifecycle_state : String
deriving DecidableEq

/-- The identity capability, as oracles indexed by the value of the
`api_calls_made` counter at the moment of the call, so that repeated calls may
answer differently. -/
structure IdentityOracle where
  list_region_subscriptions : Nat → CallResult (List RegionSub)
  get_compartment : Nat → String → CallResult String
  list_compartments : Nat → CallResult (List Compartment)
  get_tenancy : Nat → CallResult String

/-- The mutable state of a `SimpleStoppedInstanceLister`: the two caches
(lines 80-81) and the shared `api_calls_made` counter (line 65). -/
structure ListerState where
  tenancy_id : String
  region_cache : List String
  compartment_cache : List (String × String)
  api_calls : Nat
deriving DecidableEq

/-! ## Region/Compartment resolver (lines 114-186) -/

/-- Source `get_subscribed_regions` (lines 114-140): answer from the cache when
it is truthy (non-empty, line 116); otherwise one capability call — counted
before it is issued (line 121) — keeping only `status == "READY"` subscriptions
(lines 127-131); any exception falls back to the fixed two-region list
(line 139).  Either outcome is stored in the cache. -/
def get_subscribed_regions (oracle : Nat → CallResult (List RegionSub))
    (s : ListerState) : List String × ListerState :=
  if s.region_cache.isEmpty then
    match oracle s.api_calls with
    | CallResult.ok subs =>
      let cache := (subs.filter (fun r => r.status == "READY")).map (fun r => r.region_name)
      (cache, { s with region_cache := cache, api_calls := s.api_calls + 1 })
    | CallResult.err _ =>
      let cache := ["us-ashburn-1", "us-phoenix-1"]
      (cache, { s with region_cache := cache, api_calls := s.api_calls + 1 })
  else (s.region_cache, s)

/-- The per-id loop of `get_all_compartments` (lines 152-158): each iteration
counts one call inside its own `try` and stores the name, or "Unknown" on any
exception.  Threaded state is `(cache, api_calls)`. -/
def resolveExplicitIds (oracle : IdentityOracle) :
    List String → List (String × String) × Nat → List (String × String) × Nat
  | [], acc => acc
  | comp_id :: rest, (cache, calls) =>
    match oracle.get_compartment calls comp_id with
    | CallResult.ok name => resolveExplicitIds oracle rest (dictInsert cache comp_id name, calls + 1)
    | CallResult.err _ => resolveExplicitIds oracle rest (dictInsert cache comp_id "Unknown", calls + 1)

/-- The no-explicit-ids branch of `get_all_compartments` (lines 160-178) plus
its outer exception handler (lines 183-186): one counted `list_compartments`
call keeps `ACTIVE` compartments, then one counted `get_tenancy` call adds the
root entry (or "Root Compartment" when it raises); if `list_compartments`
itself raises, the cache is replaced by the single root entry. -/
def getAllCompartmentsFull (oracle : IdentityOracle) (s : ListerState) :
    List (String × String) × ListerState :=
  match oracle.list_compartments s.api_calls with
  | CallResult.err _ =>
    let cache := [(s.tenancy_id, "Root Compartment")]
    (cache, { s with compartment_cache := cache, api_calls := s.api_calls + 1 })
  | CallResult.ok comps =>
    let cache := comps.foldl
      (fun c comp =>
        if comp.lifecycle_state == "ACTIVE" then dictInsert c comp.id comp.name else c)
      s.compartment_cache
    match oracle.get_tenancy (s.api_calls + 1) with
    | CallResult.ok tname =>
      let cache := dictInsert cache s.tenancy_id (tname ++ " (Root)")
      (cache, { s with compartment_cache := cache, api_calls := s.api_calls + 2 })
    | CallResult.err _ =>
      let cache := dictInsert cache s.tenancy_id "Root Compartment"
      (cache, { s with compartment_cache := cache, api_calls := s.api_calls + 2 })

/-- Source `get_all_compartments` (lines 142-186): answer from the cache when
truthy (line 144).  With explicit ids (truthy list) resolve each individually;
otherwise one `list_compartments` call keeps `ACTIVE` compartments
(lines 161-170) and then a `get_tenancy` call adds the root entry — named
`<tenancy> (Root)`, or "Root Compartment" if that lookup raises
(lines 172-178).  If `list_compartments` itself raises, the outer handler
replaces the cache with the single root entry (lines 183-186). -/
def get_all_compartments (oracle : IdentityOracle)
    (compartment_ids : Option (List String)) (s : ListerState) :
    List (String × String) × ListerState :=
  if s.compartment_cache.isEmpty then
    match compartment_ids with
    | some ids =>
      if ids.isEmpty then
        getAllCompartmentsFull oracle s
      else
        let rc := resolveExplicitIds oracle ids (s.compartment_cache, s.api_calls)
        (rc.1, { s with compartment_cache := rc.1, api_calls := rc.2 })
    | none => getAllCompartmentsFull oracle s
  else (s.compartment_cache, s)

/-! ## Per-cell scan with retry (`get_stopped_instances_in_region_compartment`,
lines 188-224)

One scan cell makes up to `max_retries = 3` attempts.  The body of each attempt
is: build a region-specific config and a `ComputeClient` (local object set-up,
modelled as infallible), count one API call (line 203), then issue
`list_instances` — modelled by consulting `oracle` at the attempt index.  On an
exception: if another attempt remains and the error text (lower-cased) contains
one of the transient keywords, sleep `retry_delay` seconds, double the delay
and retry; otherwise return `[]` for the cell (lines 211-224).  The outcome
records the instances returned, the number of attempts counted into
`api_calls_made`, and the sleeps performed.
-/

/-- The keyword list of the transient-error heuristic (line 215). -/
def transientKeywords : List String := ["timeout", "connection", "max retries"]

/-- The check `any(keyword in str(e).lower() for keyword in [...])` (line 215). -/
def isTransient (msg : String) : Bool :=
  transientKeywords.any (fun kw => containsSub kw.data (toLowerChars msg.data))

/-- Outcome of scanning one cell: the raw records returned, the api-call count
contributed, and the list of backoff sleeps (in seconds) performed. -/
structure CellOutcome where
  instances : List RawInstance
  calls : Nat
  sleeps : List Nat
deriving DecidableEq

/-- The `for attempt in range(max_retries)` loop (lines 193-224), with the list
of remaining attempt indices as the recursion structure. -/
def attemptLoop (oracle : Nat → CallResult (List RawInstance)) (max_retries : Nat) :
    List Nat → Nat → Nat → List Nat → CellOutcome
  | [], _, calls, sleeps => CellOutcome.mk [] calls sleeps
  | attempt :: rest, retry_delay, calls, sleeps =>
    match oracle attempt with
    | CallResult.ok insts => CellOutcome.mk insts (calls + 1) sleeps
    | CallResult.err msg =>
      if attempt < max_retries - 1 && isTransient msg then
        attemptLoop oracle max_retries rest (retry_delay * 2) (calls + 1) (sleeps ++ [retry_delay])
      else CellOutcome.mk [] (calls + 1) sleeps

/-- Source `get_stopped_instances_in_region_compartment` (lines 188-224):
`max_retries = 3`, initial `retry_delay = 5`. -/
def get_stopped_instances_in_region_compartment
    (oracle : Nat → CallResult (List RawInstance)) : CellOutcome :=
  attemptLoop oracle 3 (List.range 3) 5 0 []

/-! ## Scan task executor (`discover_stopped_instances`, lines 317-363)

The task list is the region-major cross product (lines 322-325).  Results are
collected in thread-pool completion order, which is scheduler-dependent; the
embedding therefore takes the completion order as an argument, and the
aggregation claims are proved for every order that is a permutation of the
task list.  Each completed cell's records are tagged with the source region
(`instance.region = region`, line 346) and appended once (line 347).  The
per-cell scan outcome is abstracted as `cell region compartment_id` (the
instance list produced by `get_stopped_instances_in_region_compartment`, which
is `[]` for a failed cell).
-/

/-- The task cross product built on lines 322-325, region-major. -/
def scanTasks (regions compartment_ids : List String) : List (String × String) :=
  (regions.map (fun r => compartment_ids.map (fun c => (r, c)))).flatten

/-- The region tagging on line 346: `instance.region = region`. -/
def tagRegion (r : String) (inst : RawInstance) : RawInstance :=
  { inst with region := some r }

/-- Source `discover_stopped_instances` (lines 317-363) for a given completion
order of the submitted cells. -/
def discover_stopped_instances (cell : String → String → List RawInstance)
    (order : List (String × String)) : List RawInstance :=
  (order.map (fun rc => (cell rc.1 rc.2).map (tagRegion rc.1))).flatten

/-! ## Result processor (lines 285-315 and 365-387) -/

/-- Source `process_stopped_instance` (lines 285-315).  Plain attribute reads
(`instance.compartment_id`, `instance.time_created`, `instance.display_name`,
`instance.id`, `instance.shape`) raise `AttributeError` when the attribute is
absent — modelled by the `Option` bind; `getattr(..., default)` reads never
raise.  The compartment name falls back to "Unknown" on a cache miss
(line 288). -/
def process_stopped_instance (cache : List (String × String)) (nowMicro : Int)
    (inst : RawInstance) (region : String) : Option StoppedInstance := do
  let cid ← inst.compartment_id
  let compartment_name := dictGet cache cid "Unknown"
  let owner := get_owner_from_tags (inst.defined_tags.getD [])
      (inst.freeform_tags.getD [])
  let tc ← inst.time_created
  let days := calculate_days_since_created nowMicro tc
  let dn ← inst.display_name
  let iid ← inst.id
  let sh ← inst.shape
  some (StoppedInstance.mk dn iid sh region
    (inst.availability_domain.getD "Unknown") compartment_name cid tc days owner
    (inst.fault_domain.getD "Unknown") (inst.image_id.getD "Unknown"))

/-- Stable insertion into a list sorted by descending `days_since_created`:
the inserted element goes before the first element whose key does not exceed
its own, so an element earlier in the input precedes later elements with equal
keys. -/
def insertDesc (x : StoppedInstance) : List StoppedInstance → List StoppedInstance
  | [] => [x]
  | y :: ys =>
    if x.days_since_created < y.days_since_created then y :: insertDesc x ys
    else x :: y :: ys

/-- Stable descending sort by `days_since_created`, modelling
`results.sort(key=lambda x: x.days_since_created, reverse=True)` (line 384):
Python's sort is stable, and `reverse=True` reverses the comparison, not the
output, so ties keep input order. -/
def sortDesc : List StoppedInstance → List StoppedInstance
  | [] => []
  | x :: xs => insertDesc x (sortDesc xs)

/-- The per-record loop of `process_instances` (lines 371-381).  A record whose
processing raises is handled by the `except` block, whose own log line reads
`instance.id` (line 380); when that attribute is also absent the handler itself
raises and the exception escapes the loop — modelled by the `none` result. -/
def processInstancesGo (cache : List (String × String)) (nowMicro : Int)
    (min_days : Int) : List RawInstance → Option (List StoppedInstance)
  | [] => some []
  | inst :: rest =>
    match process_stopped_instance cache nowMicro inst (inst.region.getD "unknown") with
    | some r =>
      (processInstancesGo cache nowMicro min_days rest).map
        (fun tail => if min_days ≤ r.days_since_created then r :: tail else tail)
    | none =>
      match inst.id with
      | some _ => processInstancesGo cache nowMicro min_days rest
      | none => none

/-- Source `process_instances` (lines 365-387): per-record mapping and
minimum-age filtering, then the stable descending sort.  `none` models an
exception escaping the batch (see `processInstancesGo`). -/
def process_instances (cache : List (String × String)) (nowMicro : Int)
    (instances : List RawInstance) (min_days : Int) : Option (List StoppedInstance) :=
  (processInstancesGo cache nowMicro min_days instances).map sortDesc

/-- The records `process_instances` keeps, in input order: each record that
processes successfully and whose age meets the threshold (the claim's "mapped
records whose daysSinceCreated >= minDays"). -/
def keptRecords (cache : List (String × String)) (nowMicro : Int)
    (instances : List RawInstance) (min_days : Int) : List StoppedInstance :=
  instances.filterMap (fun inst =>
    match process_stopped_instance cache nowMicro inst (inst.region.getD "unknown") with
    | some r => if min_days ≤ r.days_since_created then some r else none
    | none => none)

/-! ## Full run (`list_stopped_instances`, lines 827-862, and `main`,
lines 865-959)

`list_stopped_instances` returns a Python tuple whose arity differs between
paths: the two early-return paths (lines 848 and 855) return the 3-tuple
`[], "", ""`, while the final return (line 862) returns the 4-tuple
`results, csv_file, html_file, summary`.  `PyTuple` records that arity.  The
report strings are produced by the renderer, which the spec excludes from the
core; they are carried as opaque placeholder strings. -/

/-- The tuple returned by `list_stopped_instances`: 3 values on the early
paths, 4 on the full path. -/
inductive PyTuple where
  | t3 (results : List StoppedInstance) (csv html : String)
  | t4 (results : List StoppedInstance) (csv html summary : String)
deriving DecidableEq

/-- Arity of the returned tuple. -/
def PyTuple.arity : PyTuple → Nat
  | t3 _ _ _ => 3
  | t4 _ _ _ _ => 4

/-- The unpacking in `main` (line 934):
`results, csv_file, html_file, summary = lister.list_stopped_instances(...)`.
Unpacking a 3-tuple into four names raises `ValueError` — modelled as `none`. -/
def mainUnpack (t : PyTuple) : Option (List StoppedInstance × String × String × String) :=
  match t with
  | PyTuple.t4 a b c d => some (a, b, c, d)
  | PyTuple.t3 _ _ _ => none

/-- The external collaborators of one run: the identity capability, the
per-cell instance-list outcome (post-retry), and the current instant. -/
structure RunEnv where
  identity : IdentityOracle
  cell : String → String → List RawInstance
  nowMicro : Int
  config_tenancy : String

/-- Source `list_stopped_instances` (lines 827-862): resolve regions when the
argument is falsy (`None` or an empty list, line 832), resolve compartments and
take the cache's keys in insertion order (line 838), scan the cross product
(here in submission order; aggregation is order-independent, see the executor
theorems), and either return the 3-tuple early or process and return the
4-tuple.  The first component is `none` when an exception escapes
`process_instances`. -/
def list_stopped_instances (env : RunEnv) (s : ListerState)
    (regions? : Option (List String)) (compartment_ids : Option (List String))
    (min_days : Int) : Option PyTuple × ListerState :=
  let rp :=
    match regions? with
    | none => get_subscribed_regions env.identity.list_region_subscriptions s
    | some rs =>
      if rs.isEmpty then get_subscribed_regions env.identity.list_region_subscriptions s
      else (rs, s)
  let cp := get_all_compartments env.identity compartment_ids rp.2
  let compartment_list := cp.1.map Prod.fst
  let stopped := discover_stopped_instances env.cell (scanTasks rp.1 compartment_list)
  if stopped.isEmpty then (some (PyTuple.t3 [] "" ""), cp.2)
  else
    match process_instances cp.1 env.nowMicro stopped min_days with
    | none => (none, cp.2)
    | some results =>
      if results.isEmpty then (some (PyTuple.t3 [] "" ""), cp.2)
      else (some (PyTuple.t4 results "" "" ""), cp.2)

/-- The command-line arguments of `main` (lines 886-903). -/
structure MainArgs where
  min_days : Int
  compartments : Option String
  regions : Option String
  tenancy_id : Option String
  profile : String
  output_path : String
  max_workers : Nat
  skip_regions : Option String
  timeout : Nat
deriving DecidableEq

/-- A Python `NameError`/`UnboundLocalError`: a local variable referenced
before assignment. -/
inductive MainError where
  | unboundLocal (name : String)
deriving DecidableEq

/-- Python `s.split(',')`. -/
def splitComma (s : String) : List String := s.splitOn ","

/-- Python truthiness of an optional string argument: `None` and the empty
string are falsy, any non-empty string is truthy. -/
def truthyOptStr : Option String → Bool
  | none => false
  | some s => !s.isEmpty

/-- Source `main` (lines 865-959) up to and including the scan.  The
skip-regions guard on line 908 is the truthiness test `if args.skip_regions:`,
so it fires exactly when the flag carries a non-empty value (`--skip-regions
""` is falsy and the block is skipped).  When the block runs, its list
comprehension `[r for r in regions if r not in skip_regions]` (line 910) reads
the local `regions`, which is only assigned later (line 915), so Python raises
`UnboundLocalError` there — before `lister` (line 927) is even reached and
before any scanning.  Report printing and browser launching are outside the
modelled scope. -/
def main_run (args : MainArgs) (env : RunEnv) : Except MainError (Option PyTuple × ListerState) :=
  if truthyOptStr args.skip_regions then
    Except.error (MainError.unboundLocal "regions")
  else
    let compartment_ids := args.compartments.map splitComma
    let regions := args.regions.map splitComma
    let s0 : ListerState :=
      ListerState.mk (args.tenancy_id.getD env.config_tenancy) [] [] 0
    Except.ok (list_stopped_instances env s0 regions compartment_ids args.min_days)

/-! ## Helper lemmas -/

/-- The descending order used by the report sort. -/
def descRel (a b : StoppedInstance) : Prop :=
  b.days_since_created ≤ a.days_since_created

theorem lookupFirstKey_nil (keys : List String) : lookupFirstKey [] keys = none := by
  induction keys with
  | nil => rfl
  | cons k ks ih => simp [lookupFirstKey, dictFind, ih]

theorem dictInsert_ne_nil (d : List (String × String)) (k v : String) :
    dictInsert d k v ≠ [] := by
  cases d with
  | nil => simp [dictInsert]
  | cons p rest =>
    simp only [dictInsert]
    by_cases h : p.1 == k
    · cases p; simp_all [dictInsert]
    · cases p; simp_all [dictInsert]

theorem insertDesc_perm (x : StoppedInstance) (l : List StoppedInstance) :
    (insertDesc x l).Perm (x :: l) := by
  induction l with
  | nil => exact List.Perm.refl _
  | cons y ys ih =>
    unfold insertDesc
    by_cases h : x.days_since_created < y.days_since_created
    · rw [if_pos h]
      exact (ih.cons y).trans (List.Perm.swap x y ys)
    · rw [if_neg h]

theorem sortDesc_perm (l : List StoppedInstance) : (sortDesc l).Perm l := by
  induction l with
  | nil => exact List.Perm.refl _
  | cons x xs ih => exact (insertDesc_perm x (sortDesc xs)).trans (ih.cons x)

theorem insertDesc_pairwise (x : StoppedInstance) (l : List StoppedInstance)
    (h : l.Pairwise descRel) : (insertDesc x l).Pairwise descRel := by
  induction l with
  | nil => simp [insertDesc]
  | cons y ys ih =>
    rw [List.pairwise_cons] at h
    obtain ⟨hy, hys⟩ := h
    unfold insertDesc
    by_cases hlt : x.days_since_created < y.days_since_created
    · rw [if_pos hlt, List.pairwise_cons]
      refine ⟨fun z hz => ?_, ih hys⟩
      rcases List.mem_cons.mp ((insertDesc_perm x ys).mem_iff.mp hz) with hzx | hzy
      · rw [hzx]; exact le_of_lt hlt
      · exact hy z hzy
    · rw [if_neg hlt, List.pairwise_cons]
      refine ⟨fun z hz => ?_, List.pairwise_cons.mpr ⟨hy, hys⟩⟩
      rcases List.mem_cons.mp hz with hzy | hzys
      · rw [hzy]; exact le_of_not_lt hlt
      · exact le_trans (hy z hzys) (le_of_not_lt hlt)

theorem sortDesc_pairwise (l : List StoppedInstance) : (sortDesc l).Pairwise descRel := by
  induction l with
  | nil => simp [sortDesc]
  | cons x xs ih => exact insertDesc_pairwise x (sortDesc xs) ih

theorem filter_insertDesc (x : StoppedInstance) (l : List StoppedInstance) (d : Int) :
    (insertDesc x l).filter (fun r => r.days_since_created == d)
      = if x.days_since_created == d
        then x :: l.filter (fun r => r.days_since_created == d)
        else l.filter (fun r => r.days_since_created == d) := by
  induction l with
  | nil =>
    by_cases hx : x.days_since_created = d <;>
      simp [insertDesc, List.filter_cons, List.filter_nil, hx]
  | cons y ys ih =>
    unfold insertDesc
    by_cases hlt : x.days_since_created < y.days_since_created
    · rw [if_pos hlt]
      by_cases hx : x.days_since_created = d
      · have hy : ¬ (y.days_since_created = d) := by omega
        simp [List.filter_cons, hx, hy, ih]
      · by_cases hy : y.days_since_created = d <;> simp [List.filter_cons, hx, hy, ih]
    · rw [if_neg hlt]
      by_cases hx : x.days_since_created = d <;> simp [List.filter_cons, hx]

theorem filter_sortDesc (l : List StoppedInstance) (d : Int) :
    (sortDesc l).filter (fun r => r.days_since_created == d)
      = l.filter (fun r => r.days_since_created == d) := by
  induction l with
  | nil => rfl
  | cons x xs ih =>
    show (insertDesc x (sortDesc xs)).filter _ = _
    rw [filter_insertDesc]
    by_cases hx : x.days_since_created = d <;> simp [List.filter_cons, hx, ih]

theorem processInstancesGo_eq (cache : List (String × String)) (nowMicro min_days : Int) :
    ∀ instances : List RawInstance,
    (∀ inst ∈ instances,
        process_stopped_instance cache nowMicro inst (inst.region.getD "unknown") = none →
        inst.id ≠ none) →
    processInstancesGo cache nowMicro min_days instances
      = some (keptRecords cache nowMicro instances min_days) := by
  intro instances
  induction instances with
  | nil => intro _; rfl
  | cons inst rest ih =>
    intro h
    have hrest := fun i hi => h i (List.mem_cons_of_mem _ hi)
    unfold processInstancesGo
    cases hp : process_stopped_instance cache nowMicro inst (inst.region.getD "unknown") with
    | some r =>
      rw [ih hrest]
      by_cases hr : min_days ≤ r.days_since_created <;>
        simp [keptRecords, List.filterMap_cons, hp, hr]
    | none =>
      have hid := h inst (List.mem_cons_self inst rest) hp
      cases hi : inst.id with
      | none => exact absurd hi hid
      | some v =>
        simp [ih hrest, keptRecords, List.filterMap_cons, hp]

theorem get_subscribed_regions_cached (oracle : Nat → CallResult (List RegionSub))
    (s : ListerState) (h : s.region_cache ≠ []) :
    get_subscribed_regions oracle s = (s.region_cache, s) := by
  unfold get_subscribed_regions
  simp [h]

theorem get_all_compartments_cached (oracle : IdentityOracle)
    (ids : Option (List String)) (s : ListerState) (h : s.compartment_cache ≠ []) :
    get_all_compartments oracle ids s = (s.compartment_cache, s) := by
  unfold get_all_compartments
  simp [h]

theorem resolveExplicitIds_ne_nil (oracle : IdentityOracle) :
    ∀ (ids : List String) (cache : List (String × String)) (calls : Nat),
    cache ≠ [] ∨ ids ≠ [] →
    (resolveExplicitIds oracle ids (cache, calls)).1 ≠ [] := by
  intro ids
  induction ids with
  | nil =>
    intro cache calls h
    simp [resolveExplicitIds]
    tauto
  | cons i rest ih =>
    intro cache calls _
    unfold resolveExplicitIds
    cases oracle.get_compartment calls i with
    | ok name => exact ih (dictInsert cache i name) (calls + 1) (Or.inl (dictInsert_ne_nil _ _ _))
    | err m => exact ih (dictInsert cache i "Unknown") (calls + 1) (Or.inl (dictInsert_ne_nil _ _ _))

theorem get_all_compartments_state (oracle : IdentityOracle)
    (ids : Option (List String)) (s : ListerState) :
    ((get_all_compartments oracle ids s).2).compartment_cache
        = (get_all_compartments oracle ids s).1
    ∧ (get_all_compartments oracle ids s).1 ≠ [] := by
  unfold get_all_compartments
  by_cases he : s.compartment_cache.isEmpty
  · have hful : ∀ u : ListerState,
        (getAllCompartmentsFull oracle u).2.compartment_cache
            = (getAllCompartmentsFull oracle u).1
        ∧ (getAllCompartmentsFull oracle u).1 ≠ [] := by
      intro u
      unfold getAllCompartmentsFull
      cases oracle.list_compartments u.api_calls with
      | err m => exact ⟨rfl, by simp⟩
      | ok comps =>
        cases oracle.get_tenancy (u.api_calls + 1) with
        | ok tname => exact ⟨rfl, dictInsert_ne_nil _ _ _⟩
        | err m => exact ⟨rfl, dictInsert_ne_nil _ _ _⟩
    rw [if_pos he]
    cases ids with
    | none => exact hful s
    | some l =>
      cases l with
      | nil => simp only [List.isEmpty_nil, if_true]; exact hful s
      | cons i rest =>
        refine ⟨rfl, ?_⟩
        exact resolveExplicitIds_ne_nil oracle (i :: rest) s.compartment_cache s.api_calls
          (Or.inr (by simp))
  · rw [if_neg he]
    exact ⟨rfl, fun hn => he (by rw [show s.compartment_cache = [] from hn]; rfl)⟩

/-! ## Claim C1 -/

/-- Identity oracle for a run whose only region subscription is not READY, so
the resolved region list — and with it the scan universe — is empty. -/
def c1Identity : IdentityOracle :=
  IdentityOracle.mk (fun _ => CallResult.ok [RegionSub.mk "ap-sydney-1" "PENDING"])
    (fun _ _ => CallResult.err "unused") (fun _ => CallResult.ok [])
    (fun _ => CallResult.ok "acme")

/-- Run environment for the empty-universe run. -/
def c1Env : RunEnv := RunEnv.mk c1Identity (fun _ _ => []) 0 "ocid1.tenancy.root"

/-- Fresh lister state for the empty-universe run. -/
def c1State : ListerState := ListerState.mk "ocid1.tenancy.root" [] [] 0

/-- C1: the claim says an empty scan universe yields zero reports and reaches
the "no stopped instances found" path without raising any error.  The code
disagrees: on that path `list_stopped_instances` returns the 3-tuple
`[], "", ""` (line 848) while `main` unpacks four values (line 934), so the
unpacking raises `ValueError`.  This theorem evaluates the embedded code at a
failing input — a run whose only region subscription is not READY — showing
the early 3-tuple return and the failed 4-way unpack. -/
theorem C1_empty_universe_unpack_raises :
    (list_stopped_instances c1Env c1State none none 0).1 = some (PyTuple.t3 [] "" "")
    ∧ ((list_stopped_instances c1Env c1State none none 0).1.map PyTuple.arity = some 3)
    ∧ mainUnpack (PyTuple.t3 [] "" "") = none := by
  decide

/-! ## Claim C2 -/

/-- C2: per scan cell, a transient failure (error text containing a
timeout/connection-class keyword) is retried up to 3 attempts total with
sleeps of 5 then 10 seconds; a non-transient failure, or exhaustion of the
retries, yields an empty cell result without aborting; and every attempt,
successful or failed, adds one to `api_calls_made` — so a cell that times out
twice and then succeeds with some instances contributes exactly those
instances and exactly 3 calls. -/
theorem C2_cell_retry_backoff_and_accounting :
    (∀ (oracle : Nat → CallResult (List RawInstance)) (m0 m1 : String)
        (insts : List RawInstance),
      oracle 0 = CallResult.err m0 → isTransient m0 = true →
      oracle 1 = CallResult.err m1 → isTransient m1 = true →
      oracle 2 = CallResult.ok insts →
      get_stopped_instances_in_region_compartment oracle = CellOutcome.mk insts 3 [5, 10])
    ∧ (∀ (oracle : Nat → CallResult (List RawInstance)) (m : String),
      oracle 0 = CallResult.err m → isTransient m = false →
      get_stopped_instances_in_region_compartment oracle = CellOutcome.mk [] 1 [])
    ∧ (∀ (oracle : Nat → CallResult (List RawInstance)) (m0 m1 m2 : String),
      oracle 0 = CallResult.err m0 → isTransient m0 = true →
      oracle 1 = CallResult.err m1 → isTransient m1 = true →
      oracle 2 = CallResult.err m2 →
      get_stopped_instances_in_region_compartment oracle = CellOutcome.mk [] 3 [5, 10]) := by
  have hr : List.range 3 = [0, 1, 2] := rfl
  refine ⟨?_, ?_, ?_⟩
  · intro oracle m0 m1 insts h0 t0 h1 t1 h2
    unfold get_stopped_instances_in_region_compartment
    rw [hr]
    simp [attemptLoop, h0, h1, h2, t0, t1]
  · intro oracle m h0 t0
    unfold get_stopped_instances_in_region_compartment
    rw [hr]
    simp [attemptLoop, h0, t0]
  · intro oracle m0 m1 m2 h0 t0 h1 t1 h2
    unfold get_stopped_instances_in_region_compartment
    rw [hr]
    simp [attemptLoop, h0, h1, h2, t0, t1]

/-- A cell oracle that times out twice and then succeeds with one instance. -/
def c2Oracle : Nat → CallResult (List RawInstance) := fun n =>
  if n < 2 then CallResult.err "Read timeout on endpoint"
  else CallResult.ok [RawInstance.mk (some "vm1") (some "ocid1.instance.vm1") (some "VM.Std")
    none (some "c1") (some "2024-01-01T00:00:00Z") none none none none none]

/-- C2 witness: the two-timeouts-then-success scenario at a concrete oracle:
the cell contributes its 1 instance and exactly 3 API calls, sleeping 5 then
10 seconds. -/
theorem C2_witness :
    get_stopped_instances_in_region_compartment c2Oracle
      = CellOutcome.mk [RawInstance.mk (some "vm1") (some "ocid1.instance.vm1") (some "VM.Std")
          none (some "c1") (some "2024-01-01T00:00:00Z") none none none none none] 3 [5, 10] :=
  C2_cell_retry_backoff_and_accounting.1 c2Oracle "Read timeout on endpoint"
    "Read timeout on endpoint" _ rfl (by decide) rfl (by decide) rfl

/-! ## Claim C3 -/

/-- A raw record with every attribute absent: its processing raises, and the
`except` handler's own log line `instance.id` (line 380) raises again. -/
def c3BadRaw : RawInstance :=
  RawInstance.mk none none none none none none none none none none none

/-- C3 counterexample: the claim says a record whose per-record processing
raises is skipped without failing the batch, for every input sequence.  For a
record that also lacks the `id` attribute this fails: the handler's log line
reads `instance.id`, raises `AttributeError` inside the `except` block, and
the exception escapes `process_instances` — the batch produces no output. -/
theorem C3_counterexample_batch_aborts :
    process_instances [] 0 [c3BadRaw] 0 = none := by
  decide

/-- C3 (amended): for every input sequence in which each record whose
processing raises still has an `id` attribute, the output is exactly the
mapped records with `daysSinceCreated >= minDays` — a permutation of
`keptRecords` sorted descending by `daysSinceCreated`, ties keeping input
order (equal-key subsequences are preserved) — and failing records are
skipped without failing the batch. -/
theorem C3_amended_process_filter_sort_stable :
    ∀ (cache : List (String × String)) (nowMicro : Int) (instances : List RawInstance)
      (min_days : Int),
    (∀ inst ∈ instances,
        process_stopped_instance cache nowMicro inst (inst.region.getD "unknown") = none →
        inst.id ≠ none) →
    ∃ out, process_instances cache nowMicro instances min_days = some out
      ∧ out.Perm (keptRecords cache nowMicro instances min_days)
      ∧ out.Pairwise descRel
      ∧ (∀ d : Int, out.filter (fun r => r.days_since_created == d)
          = (keptRecords cache nowMicro instances min_days).filter
              (fun r => r.days_since_created == d))
      ∧ (∀ r, r ∈ out ↔ r ∈ keptRecords cache nowMicro instances min_days) := by
  intro cache nowMicro instances min_days h
  refine ⟨sortDesc (keptRecords cache nowMicro instances min_days), ?_, ?_, ?_, ?_, ?_⟩
  · unfold process_instances
    rw [processInstancesGo_eq cache nowMicro min_days instances h]
    rfl
  · exact sortDesc_perm _
  · exact sortDesc_pairwise _
  · intro d; exact filter_sortDesc _ d
  · intro r; exact (sortDesc_perm _).mem_iff

/-- Two well-formed raw records (younger listed first) for the C3 witness. -/
def c3RawA : RawInstance := RawInstance.mk (some "a") (some "ida") (some "VM.A") none
  (some "c1") (some "2024-01-01T00:00:00Z") none none none none (some "r1")

/-- Second record of the C3 witness. -/
def c3RawB : RawInstance := RawInstance.mk (some "b") (some "idb") (some "VM.B") none
  (some "c1") (some "2024-02-01T00:00:00Z") none none none none (some "r1")

/-- C3 witness: the amended theorem applied to a concrete two-record batch. -/
theorem C3_witness :
    ∃ out, process_instances [("c1", "compA")] (epochMicro 2024 3 1 0 0 0 0)
        [c3RawB, c3RawA] 0 = some out
      ∧ out.Perm (keptRecords [("c1", "compA")] (epochMicro 2024 3 1 0 0 0 0)
          [c3RawB, c3RawA] 0)
      ∧ out.Pairwise descRel
      ∧ (∀ d : Int, out.filter (fun r => r.days_since_created == d)
          = (keptRecords [("c1", "compA")] (epochMicro 2024 3 1 0 0 0 0)
              [c3RawB, c3RawA] 0).filter (fun r => r.days_since_created == d))
      ∧ (∀ r, r ∈ out ↔ r ∈ keptRecords [("c1", "compA")] (epochMicro 2024 3 1 0 0 0 0)
          [c3RawB, c3RawA] 0) :=
  C3_amended_process_filter_sort_stable [("c1", "compA")] (epochMicro 2024 3 1 0 0 0 0)
    [c3RawB, c3RawA] 0 (by decide)

/-! ## Claim C4 -/

/-- C4: `extractOwner` returns the value of the first present freeform key in
the order Owner, CreatedBy, Contact, Maintainer, Team before ever consulting
defined tags; only if no freeform key matches does it scan the defined-tag
namespaces for the first present key among Owner, CreatedBy, Contact,
ApplicationOwner; with no match anywhere it returns "Unknown".  Stated as:
the source function equals the spec-level `extractOwnerSpec` on all tag
mappings; when a freeform priority key is present the defined tags are
irrelevant; and with no match anywhere the result is "Unknown". -/
theorem C4_owner_priority :
    (∀ (dt : List (String × TagValue)) (ft : List (String × String)),
      get_owner_from_tags dt ft = extractOwnerSpec dt ft)
    ∧ (∀ (dt dt' : List (String × TagValue)) (ft : List (String × String)),
      lookupFirstKey ft freeformKeys ≠ none →
      get_owner_from_tags dt ft = get_owner_from_tags dt' ft)
    ∧ (∀ (dt : List (String × TagValue)) (ft : List (String × String)),
      lookupFirstKey ft freeformKeys = none → scanDefinedTags dt = none →
      get_owner_from_tags dt ft = "Unknown") := by
  have heq : ∀ (dt : List (String × TagValue)) (ft : List (String × String)),
      get_owner_from_tags dt ft = extractOwnerSpec dt ft := by
    intro dt ft
    cases ft with
    | nil =>
      cases dt with
      | nil => rfl
      | cons p rest =>
        simp [get_owner_from_tags, extractOwnerSpec, lookupFirstKey_nil]
    | cons q qs =>
      cases dt with
      | nil => simp [get_owner_from_tags, extractOwnerSpec, scanDefinedTags]
      | cons p rest => rfl
  refine ⟨heq, ?_, ?_⟩
  · intro dt dt' ft hft
    rw [heq dt ft, heq dt' ft]
    unfold extractOwnerSpec
    cases h : lookupFirstKey ft freeformKeys with
    | some v => rfl
    | none => exact absurd h hft
  · intro dt ft hft hdt
    rw [heq dt ft]
    unfold extractOwnerSpec
    rw [hft, hdt]

/-- C4 witness: concrete instantiations of the hypothesised conjuncts —
`Team` present in freeform tags beats any defined tags, and an empty match
everywhere gives "Unknown". -/
theorem C4_witness :
    get_owner_from_tags [("ns", TagValue.dict [("Owner", "dtOwner")])] [("Team", "alpha")]
        = get_owner_from_tags [] [("Team", "alpha")]
    ∧ get_owner_from_tags [("ns", TagValue.other)] [("Env", "prod")] = "Unknown" :=
  And.intro
    (C4_owner_priority.2.1 [("ns", TagValue.dict [("Owner", "dtOwner")])] [] [("Team", "alpha")]
      (by decide))
    (C4_owner_priority.2.2 [("ns", TagValue.other)] [("Env", "prod")] (by decide) (by decide))

/-! ## Claim C5 -/

/-- C5: `computeAgeDays` always returns a non-negative value; on any input the
source's return-0 paths (empty string, unparseable string) give 0 rather than
raising; on a parseable timestamp it returns the whole number of days between
creation and the current instant floored at 0; and the spec scenario
`"2024-01-01T00:00:00Z"` evaluated at 2024-03-01 gives 60. -/
theorem C5_age_days :
    (∀ (now : Int) (s : String), 0 ≤ calculate_days_since_created now s)
    ∧ (∀ (now : Int) (s : String), parsePy s = none →
        calculate_days_since_created now s = 0)
    ∧ (∀ (now : Int) (s : String) (t : Int), parsePy s = some t →
        calculate_days_since_created now s = max 0 ((now - t).fdiv usecPerDay))
    ∧ calculate_days_since_created (epochMicro 2024 3 1 0 0 0 0) "2024-01-01T00:00:00Z" = 60 := by
  refine ⟨?_, ?_, ?_, by decide⟩
  · intro now s
    unfold calculate_days_since_created
    split
    · exact le_refl 0
    · split
      · exact le_max_left 0 _
      · exact le_refl 0
  · intro now s h
    unfold parsePy at h
    unfold calculate_days_since_created
    by_cases he : s.data.isEmpty
    · simp [he]
    · simp [he] at h ⊢
      rw [h]
  · intro now s t h
    unfold parsePy at h
    unfold calculate_days_since_created
    by_cases he : s.data.isEmpty
    · simp [he] at h
    · simp [he] at h ⊢
      rw [h]

/-- C5 witness: the hypothesised conjuncts at concrete inputs — an unparseable
string gives 0, and the scenario timestamp gives the floored day difference. -/
theorem C5_witness :
    calculate_days_since_created 0 "garbage" = 0
    ∧ calculate_days_since_created (epochMicro 2024 3 1 0 0 0 0) "2024-01-01T00:00:00Z"
        = max 0 ((epochMicro 2024 3 1 0 0 0 0 - epochMicro 2024 1 1 0 0 0 0).fdiv usecPerDay) :=
  And.intro (C5_age_days.2.1 0 "garbage" (by decide))
    (C5_age_days.2.2.1 (epochMicro 2024 3 1 0 0 0 0) "2024-01-01T00:00:00Z"
      (epochMicro 2024 1 1 0 0 0 0) (by decide))

/-! ## Claim C6 -/

/-- An identity subscription oracle whose first answer has no READY region and
whose second answer has one. -/
def c6Oracle : Nat → CallResult (List RegionSub) := fun n =>
  if n == 0 then CallResult.ok [RegionSub.mk "eu-zurich-1" "PENDING"]
  else CallResult.ok [RegionSub.mk "eu-zurich-1" "READY"]

/-- Fresh state for the C6 counterexample. -/
def c6State : ListerState := ListerState.mk "ten" [] [] 0

/-- C6 counterexample: the claim says a second call to `resolveRegions` returns
an identical result and issues no additional capability calls, for every run.
The cache check is a Python truthiness test (`if self.region_cache:`,
line 116), so a first call that found zero READY regions leaves an empty —
falsy — cache, and the second call issues another capability call (the counter
reaches 2) and can even return a different result. -/
theorem C6_counterexample_empty_cache_refetch :
    ((get_subscribed_regions c6Oracle c6State).2.api_calls = 1)
    ∧ ((get_subscribed_regions c6Oracle
          (get_subscribed_regions c6Oracle c6State).2).2.api_calls = 2)
    ∧ (get_subscribed_regions c6Oracle
          (get_subscribed_regions c6Oracle c6State).2).1
        ≠ (get_subscribed_regions c6Oracle c6State).1 := by
  decide

/-- C6 (amended): resolving compartments twice in a run returns an identical
result with no additional capability calls, unconditionally: the compartment
cache is non-empty after any first call.  Resolving regions twice behaves the
same way provided the first resolution produced a non-empty region list; a
first call that found no READY region leaves the truthiness-keyed cache falsy
and is re-issued (see the counterexample). -/
theorem C6_amended_memoization :
    (∀ (oracle : Nat → CallResult (List RegionSub)) (s : ListerState),
      (get_subscribed_regions oracle s).1 ≠ [] →
      get_subscribed_regions oracle (get_subscribed_regions oracle s).2
        = get_subscribed_regions oracle s)
    ∧ (∀ (oracle : IdentityOracle) (ids ids2 : Option (List String)) (s : ListerState),
      get_all_compartments oracle ids2 (get_all_compartments oracle ids s).2
        = get_all_compartments oracle ids s) := by
  constructor
  · intro oracle s h
    by_cases he : s.region_cache.isEmpty
    · cases ho : oracle s.api_calls with
      | ok subs =>
        have h1 : get_subscribed_regions oracle s
            = ((subs.filter (fun r => r.status == "READY")).map (fun r => r.region_name),
               { s with
                  region_cache :=
                    (subs.filter (fun r => r.status == "READY")).map (fun r => r.region_name),
                  api_calls := s.api_calls + 1 }) := by
          unfold get_subscribed_regions
          rw [if_pos he, ho]
        rw [h1] at h ⊢
        exact get_subscribed_regions_cached oracle _ h
      | err msg =>
        have h1 : get_subscribed_regions oracle s
            = (["us-ashburn-1", "us-phoenix-1"],
               { s with region_cache := ["us-ashburn-1", "us-phoenix-1"],
                        api_calls := s.api_calls + 1 }) := by
          unfold get_subscribed_regions
          rw [if_pos he, ho]
        rw [h1]
        exact get_subscribed_regions_cached oracle _ (by simp)
    · have hne : s.region_cache ≠ [] := fun hn => he (by rw [hn]; rfl)
      rw [get_subscribed_regions_cached oracle s hne]
      exact get_subscribed_regions_cached oracle s hne
  · intro oracle ids ids2 s
    obtain ⟨hcache, hne⟩ := get_all_compartments_state oracle ids s
    have h2 : ((get_all_compartments oracle ids s).2).compartment_cache ≠ [] := by
      rw [hcache]; exact hne
    rw [get_all_compartments_cached oracle ids2 _ h2, hcache]

/-- Subscription oracle for the C6 witness: one READY region. -/
def c6OkOracle : Nat → CallResult (List RegionSub) :=
  fun _ => CallResult.ok [RegionSub.mk "us-ashburn-1" "READY"]

/-- Identity oracle for the C6 witness compartment half. -/
def c6IdOracle : IdentityOracle :=
  IdentityOracle.mk c6OkOracle (fun _ _ => CallResult.err "nope")
    (fun _ => CallResult.ok [Compartment.mk "c1" "team-a" "ACTIVE"])
    (fun _ => CallResult.ok "acme")

/-- C6 witness: the amended theorem at concrete oracles — a second region
resolution after a non-empty first result, and a second compartment
resolution, are both answered from the cache. -/
theorem C6_witness :
    get_subscribed_regions c6OkOracle (get_subscribed_regions c6OkOracle c6State).2
        = get_subscribed_regions c6OkOracle c6State
    ∧ get_all_compartments c6IdOracle none (get_all_compartments c6IdOracle none c6State).2
        = get_all_compartments c6IdOracle none c6State :=
  And.intro (C6_amended_memoization.1 c6OkOracle c6State (by decide))
    (C6_amended_memoization.2 c6IdOracle none none c6State)

/-! ## Claim C7 -/

/-- C7: for every target list and every completion order of the cells, the
aggregated raw-record count equals the sum of the per-cell result counts — no
record duplicated or lost, including when failed cells contribute empty lists —
and every aggregated record is tagged with its source region. -/
theorem C7_aggregation_no_loss_no_dup :
    ∀ (cell : String → String → List RawInstance) (regions compartment_ids : List String)
      (order : List (String × String)),
    order.Perm (scanTasks regions compartment_ids) →
    ((discover_stopped_instances cell order).length
        = ((scanTasks regions compartment_ids).map (fun rc => (cell rc.1 rc.2).length)).sum
     ∧ ∀ x ∈ discover_stopped_instances cell order,
        ∃ rc ∈ scanTasks regions compartment_ids,
          x.region = some rc.1 ∧ ∃ y ∈ cell rc.1 rc.2, x = tagRegion rc.1 y) := by
  intro cell regions cids order h
  constructor
  · unfold discover_stopped_instances
    rw [List.length_flatten, List.map_map]
    have hg : (List.length ∘ fun rc : String × String =>
        (cell rc.1 rc.2).map (tagRegion rc.1)) = fun rc => (cell rc.1 rc.2).length := by
      funext rc
      simp
    rw [hg]
    exact (h.map _).sum_eq
  · intro x hx
    unfold discover_stopped_instances at hx
    rw [List.mem_flatten] at hx
    obtain ⟨l, hl, hxl⟩ := hx
    rw [List.mem_map] at hl
    obtain ⟨rc, hrc, rfl⟩ := hl
    rw [List.mem_map] at hxl
    obtain ⟨y, hy, rfl⟩ := hxl
    exact ⟨rc, h.mem_iff.mp hrc, rfl, y, hy, rfl⟩

/-- Cell outcomes for the C7 witness: one cell yields a record, the other
fails (empty). -/
def c7Cell : String → String → List RawInstance := fun r c =>
  if r == "r1" && c == "c1" then
    [RawInstance.mk (some "w") (some "idw") (some "VM.W") none (some "c1")
      none none none none none none]
  else []

/-- C7 witness: the aggregation theorem at a concrete 1-region, 2-compartment
matrix in submission order. -/
theorem C7_witness :
    ((discover_stopped_instances c7Cell (scanTasks ["r1"] ["c1", "c2"])).length
        = ((scanTasks ["r1"] ["c1", "c2"]).map (fun rc => (c7Cell rc.1 rc.2).length)).sum
     ∧ ∀ x ∈ discover_stopped_instances c7Cell (scanTasks ["r1"] ["c1", "c2"]),
        ∃ rc ∈ scanTasks ["r1"] ["c1", "c2"],
          x.region = some rc.1 ∧ ∃ y ∈ c7Cell rc.1 rc.2, x = tagRegion rc.1 y) :=
  C7_aggregation_no_loss_no_dup c7Cell ["r1"] ["c1", "c2"] (scanTasks ["r1"] ["c1", "c2"])
    (List.Perm.refl _)

/-! ## Claim C8 -/

/-- C8: `resolveRegions` returns only subscribed regions whose status is
"READY" — the result is exactly the name of every READY subscription, in
order — and if the capability call fails with any error it returns the fixed
built-in fallback `["us-ashburn-1", "us-phoenix-1"]` instead of failing the
run (the function returns normally in both cases). -/
theorem C8_regions_ready_filter_and_fallback :
    ∀ (oracle : Nat → CallResult (List RegionSub)) (s : ListerState),
    s.region_cache = [] →
    ((∀ subs, oracle s.api_calls = CallResult.ok subs →
        ((get_subscribed_regions oracle s).1
            = (subs.filter (fun r => r.status == "READY")).map (fun r => r.region_name)
         ∧ ∀ name, name ∈ (get_subscribed_regions oracle s).1 ↔
            ∃ sub ∈ subs, sub.status = "READY" ∧ sub.region_name = name))
     ∧ (∀ msg, oracle s.api_calls = CallResult.err msg →
        (get_subscribed_regions oracle s).1 = ["us-ashburn-1", "us-phoenix-1"])) := by
  intro oracle s hc
  have he : s.region_cache.isEmpty = true := by rw [hc]; rfl
  constructor
  · intro subs ho
    have h1 : (get_subscribed_regions oracle s).1
        = (subs.filter (fun r => r.status == "READY")).map (fun r => r.region_name) := by
      unfold get_subscribed_regions
      rw [if_pos he, ho]
    refine ⟨h1, fun name => ?_⟩
    rw [h1]
    simp only [List.mem_map, List.mem_filter, beq_iff_eq]
    constructor
    · rintro ⟨sub, ⟨hs, hready⟩, hname⟩
      exact ⟨sub, hs, hready, hname⟩
    · rintro ⟨sub, hs, hready, hname⟩
      exact ⟨sub, ⟨hs, hready⟩, hname⟩
  · intro msg ho
    unfold get_subscribed_regions
    rw [if_pos he, ho]

/-- Subscription oracle for the C8 witness: one READY and one PENDING entry
on the first call index, an error on any later index. -/
def c8Oracle : Nat → CallResult (List RegionSub) := fun n =>
  if n == 0 then
    CallResult.ok [RegionSub.mk "us-ashburn-1" "READY", RegionSub.mk "uk-london-1" "PENDING"]
  else CallResult.err "ServiceError 500"

/-- Fresh state for the C8 witness. -/
def c8State : ListerState := ListerState.mk "ten8" [] [] 0

/-- State with one prior call, so the C8 witness oracle answers with an error. -/
def c8StateErr : ListerState := ListerState.mk "ten8" [] [] 1

/-- C8 witness: the theorem at concrete inputs — the READY entry alone
survives, and the error call falls back to the two built-in regions. -/
theorem C8_witness :
    (get_subscribed_regions c8Oracle c8State).1
        = ([RegionSub.mk "us-ashburn-1" "READY", RegionSub.mk "uk-london-1" "PENDING"].filter
            (fun r => r.status == "READY")).map (fun r => r.region_name)
    ∧ (get_subscribed_regions c8Oracle c8StateErr).1 = ["us-ashburn-1", "us-phoenix-1"] :=
  And.intro
    ((C8_regions_ready_filter_and_fallback c8Oracle c8State rfl).1
      [RegionSub.mk "us-ashburn-1" "READY", RegionSub.mk "uk-london-1" "PENDING"] rfl).1
    ((C8_regions_ready_filter_and_fallback c8Oracle c8StateErr rfl).2 "ServiceError 500" rfl)

/-! ## Claim C9 -/

/-- Arguments that supply `--skip-regions` with the empty string: the flag is
present, but `if args.skip_regions:` is falsy on `""`. -/
def c9CexArgs : MainArgs :=
  MainArgs.mk 0 none none none "DEFAULT" "." 20 (some "") 300

/-- Environment for the C9 counterexample run: one READY region, an empty
compartment listing plus the root entry, and no stopped instances. -/
def c9CexEnv : RunEnv :=
  RunEnv.mk (IdentityOracle.mk (fun _ => CallResult.ok [RegionSub.mk "us-ashburn-1" "READY"])
      (fun _ _ => CallResult.err "unused") (fun _ => CallResult.ok [])
      (fun _ => CallResult.ok "acme"))
    (fun _ _ => []) 0 "t9"

/-- C9 counterexample: the claim says every invocation that supplies
`--skip-regions` fails before any scanning.  The guard on line 908 is the
truthiness test `if args.skip_regions:`, which is false for the supplied but
empty value `--skip-regions ""`: the block is skipped, `regions` is assigned
normally on line 915, and the run scans to completion — here reaching the
no-stopped-instances path with three identity calls made. -/
theorem C9_counterexample_empty_flag_scans :
    c9CexArgs.skip_regions = some ""
    ∧ main_run c9CexArgs c9CexEnv
        = Except.ok (some (PyTuple.t3 [] "" ""),
            ListerState.mk "t9" ["us-ashburn-1"] [("t9", "acme (Root)")] 3) :=
  And.intro rfl rfl

/-- C9 (amended): whenever `--skip-regions` is supplied with a non-empty
value, the block on lines 908-911 runs before the locals `regions` (line 915)
and `lister` (line 927) are assigned, so the run fails with an unbound-local
error before any scanning, regardless of every other argument; an
empty-valued flag is falsy and the block is skipped. -/
theorem C9_amended_skip_regions_unbound_local :
    ∀ (args : MainArgs) (env : RunEnv) (v : String),
    args.skip_regions = some v → v ≠ "" →
    main_run args env = Except.error (MainError.unboundLocal "regions") := by
  intro args env v hv hne
  have ht : truthyOptStr args.skip_regions = true := by
    rw [hv]
    show (!v.isEmpty) = true
    cases h : v.isEmpty
    · rfl
    · exact absurd ((String.isEmpty_iff v).mp h) hne
  unfold main_run
  rw [if_pos ht]

/-- Arguments with `--skip-regions` supplied non-empty for the C9 witness. -/
def c9Args : MainArgs :=
  MainArgs.mk 30 (some "ocid1.compartment.c9") (some "us-ashburn-1") none "DEFAULT" "."
    20 (some "uk-london-1,eu-frankfurt-1") 300

/-- Environment for the C9 witness. -/
def c9Env : RunEnv :=
  RunEnv.mk (IdentityOracle.mk (fun _ => CallResult.err "unused")
      (fun _ _ => CallResult.err "unused") (fun _ => CallResult.err "unused")
      (fun _ => CallResult.err "unused"))
    (fun _ _ => []) 0 "ocid1.tenancy.c9"

/-- C9 witness: the amended theorem at a concrete argument vector that also
sets every other flag. -/
theorem C9_witness :
    main_run c9Args c9Env = Except.error (MainError.unboundLocal "regions") :=
  C9_amended_skip_regions_unbound_local c9Args c9Env "uk-london-1,eu-frankfurt-1" rfl
    (by decide)

/-! ## Claim C10 -/

/-- C10: when the compartment-listing capability call itself fails (no explicit
ids given), `resolveCompartments` still returns — with the single-entry mapping
from the tenancy id to "Root Compartment" — and every later compartment-name
lookup for a different id (`self.compartment_cache.get(cid, "Unknown")`,
line 288) falls back to "Unknown". -/
theorem C10_compartment_listing_failure_degrades :
    ∀ (oracle : IdentityOracle) (s : ListerState) (cids : Option (List String)) (msg : String),
    s.compartment_cache = [] →
    (cids = none ∨ cids = some []) →
    oracle.list_compartments s.api_calls = CallResult.err msg →
    ((get_all_compartments oracle cids s).1 = [(s.tenancy_id, "Root Compartment")]
     ∧ ∀ cid, cid ≠ s.tenancy_id →
        dictGet (get_all_compartments oracle cids s).1 cid "Unknown" = "Unknown") := by
  intro oracle s cids msg hc hcids herr
  have he : s.compartment_cache.isEmpty = true := by rw [hc]; rfl
  have h1 : (get_all_compartments oracle cids s).1 = [(s.tenancy_id, "Root Compartment")] := by
    unfold get_all_compartments
    rcases hcids with h | h <;> rw [h]
    · rw [if_pos he]
      unfold getAllCompartmentsFull
      rw [herr]
    · rw [if_pos he]
      simp only [List.isEmpty_nil, if_true]
      unfold getAllCompartmentsFull
      rw [herr]
  refine ⟨h1, fun cid hcid => ?_⟩
  rw [h1]
  simp [dictGet, dictFind, Ne.symm hcid]

/-- Identity oracle whose compartment listing always raises. -/
def c10Oracle : IdentityOracle :=
  IdentityOracle.mk (fun _ => CallResult.ok []) (fun _ _ => CallResult.err "unused")
    (fun _ => CallResult.err "ConnectTimeout to identity endpoint")
    (fun _ => CallResult.ok "acme")

/-- Fresh state for the C10 witness. -/
def c10State : ListerState := ListerState.mk "ocid1.tenancy.c10" [] [] 0

/-- C10 witness: the theorem at a concrete failing oracle, including a lookup
of a different compartment id. -/
theorem C10_witness :
    ((get_all_compartments c10Oracle none c10State).1
        = [("ocid1.tenancy.c10", "Root Compartment")]
     ∧ ∀ cid, cid ≠ "ocid1.tenancy.c10" →
        dictGet (get_all_compartments c10Oracle none c10State).1 cid "Unknown" = "Unknown") :=
  C10_compartment_listing_failure_degrades c10Oracle c10State none
    "ConnectTimeout to identity endpoint" rfl (Or.inl rfl) rfl
